import Mathlib

/-!
Shallow embedding of the Sparticle particle class (src/JS/sparticle.js)
and the behavioural properties of its specification.

Numbers are modelled as rationals.  The numeric/random utility module
(helpers.js) is not part of the given sources; the spec treats it as an
external collaborator, so those primitives are modelled from the spec:
a uniform random draw in a range is represented by the range endpoints
together with an explicit random outcome r with 0 <= r < 1, a probability
roll by an explicit Bool outcome, and a random array pick by an explicit
index outcome.  Transcendental primitives (polar-to-Cartesian conversion,
degree-to-radian conversion, the surface rotation entries) are kept
abstract as a record of rational-valued function parameters.
-/

namespace Helpers

/-- Modelled from the spec: uniform random in range (helpers.js, not in the
given sources).  The random outcome `r` in `[0,1)` selects the point
`lo + r * (hi - lo)` of the range `[lo, hi)`. -/
def random (lo hi r : ℚ) : ℚ := lo + r * (hi - lo)

/-- Modelled from the spec: clamping a value into `[lo, hi]` (helpers.js,
not in the given sources). -/
def clamp (x lo hi : ℚ) : ℚ := max lo (min x hi)

/-- Modelled from the spec: rounding to the nearest integer (helpers.js,
not in the given sources); halves round up as in JS. -/
def round (q : ℚ) : ℚ := ((⌊q + 1 / 2⌋ : ℤ) : ℚ)

/-- Modelled from the spec: uniform random pick from a set (helpers.js, not
in the given sources).  The random outcome is an index, reduced modulo the
length; an empty list yields `none`. -/
def randomArray {α : Type} (xs : List α) (i : ℕ) : Option α :=
  xs.get? (i % xs.length)

/-- Modelled from the spec: the transcendental primitives consumed by the
particle — polar-to-Cartesian conversion of an angle in degrees
(helpers.js `cartesian`), degree-to-radian conversion (helpers.js
`radian`), and the cosine/sine used by the drawing surface's rotation —
kept abstract as rational-valued functions. -/
structure Trig where
  cartesian : ℚ → ℚ × ℚ
  radian : ℚ → ℚ
  cos : ℚ → ℚ
  sin : ℚ → ℚ

end Helpers

/-- The configuration record read by the particle (`this.settings`). -/
structure Settings where
  minAlpha : ℚ
  maxAlpha : ℚ
  alphaSpeed : ℚ
  alphaVariance : ℚ
  twinkle : Bool
  minSize : ℚ
  maxSize : ℚ
  speed : ℚ
  direction : ℚ
  xVariance : ℚ
  yVariance : ℚ
  drift : ℚ
  parallax : ℚ
  rotation : ℚ
  rotate : Bool
  color : List String
  shape : List String
  composition : String

/-- The bounds provider (`this.canvas`): current width/height. -/
structure Canvas where
  width : ℚ
  height : ℚ

/-- The mutable state of one particle. -/
structure Particle where
  px : ℚ
  py : ℚ
  alpha : ℚ
  da : ℚ
  dx : ℚ
  dy : ℚ
  dd : ℚ
  dr : ℚ
  size : ℚ
  rotation : ℚ
  frame : ℚ
  frameoffset : ℚ
  resettingTwinkle : Bool
  shape : Option String
  fillColor : Option String
  strokeColor : Option String

/-- The random outcomes consumed by one `setup` call: one `[0,1)` outcome
per uniform draw and one Bool outcome per probability roll. -/
structure SetupRand where
  rFo : ℚ
  rSize : ℚ
  rDa : ℚ
  daFlip : Bool
  rVx : ℚ
  rVy : ℚ
  rDd : ℚ
  rDr : ℚ
  drFlip : Bool

/-- The random outcomes consumed by one `init` call: a `setup` packet plus
the outcomes for alpha, shape/color picks, position and rotation. -/
structure InitRand where
  s : SetupRand
  rAlpha : ℚ
  iShape : ℕ
  iFill : ℕ
  iStroke : ℕ
  rPx : ℚ
  rPy : ℚ
  rRot : ℚ

namespace Sparticle

open Helpers

/-- Embeds `Sparticle.prototype.getDelta`. -/
def getDelta (s : Settings) (p : Particle) : ℚ :=
  let baseDelta := s.speed * (1 / 10)
  if s.speed ≠ 0 ∧ s.parallax ≠ 0 then
    baseDelta + p.size * s.parallax / 50
  else
    baseDelta

/-- Embeds `Sparticle.prototype.getDeltaVariance`; `r` is the random
outcome of the `random(-v, v)` draw. -/
def getDeltaVariance (s : Settings) (v : ℚ) (r : ℚ) : ℚ :=
  let sp := if s.speed = 0 then 10 else s.speed
  if v > 0 then
    random (-v) v r * sp / 100
  else
    0

/-- Embeds `Sparticle.prototype.getDeltaX`. -/
def getDeltaX (s : Settings) (t : Trig) (p : Particle) (r : ℚ) : ℚ :=
  let d := getDelta s p
  let dv := getDeltaVariance s s.xVariance r
  (t.cartesian s.direction).1 * d + dv

/-- Embeds `Sparticle.prototype.getDeltaY`. -/
def getDeltaY (s : Settings) (t : Trig) (p : Particle) (r : ℚ) : ℚ :=
  let d := getDelta s p
  let dv := getDeltaVariance s s.yVariance r
  (t.cartesian s.direction).2 * d + dv

/-- Embeds `Sparticle.prototype.getAlphaDelta`; `r` is the random outcome
of the `random(1, variance + 1)` draw and `flip` the outcome of the
`roll(1/2)` call. -/
def getAlphaDelta (s : Settings) (r : ℚ) (flip : Bool) : ℚ :=
  let a := random 1 (s.alphaVariance + 1) r
  if flip then -a else a

/-- Embeds `Sparticle.prototype.getDriftDelta`. -/
def getDriftDelta (s : Settings) (r : ℚ) : ℚ :=
  if s.drift = 0 then 0
  else random (s.drift - s.drift / 2) (s.drift + s.drift / 2) r

/-- Embeds `Sparticle.prototype.getRotationDelta`. -/
def getRotationDelta (s : Settings) (t : Trig) (r : ℚ) (flip : Bool) : ℚ :=
  if s.rotate ∧ s.rotation ≠ 0 then
    let x := t.radian (random (1 / 2) (3 / 2) r * s.rotation)
    if flip then -x else x
  else 0

/-- Embeds `Sparticle.prototype.getColor` (`settings.color` is kept as a
list, the normalized form the manager supplies). -/
def getColor (s : Settings) (i : ℕ) : Option String :=
  randomArray s.color i

/-- Embeds `Sparticle.prototype.getShapeOrImage`; `images` is the parent's
image list when one is set. -/
def getShapeOrImage (s : Settings) (images : Option (List String)) (i : ℕ) :
    Option String :=
  match images with
  | some imgs =>
      if s.shape.head? = some "image" then randomArray imgs i
      else randomArray s.shape i
  | none => randomArray s.shape i

/-- Embeds `Sparticle.prototype.setup`: resamples frame, frameoffset, size,
da, dx, dy, dd, dr and nothing else. -/
def setup (s : Settings) (t : Trig) (p : Particle) (q : SetupRand) : Particle :=
  let p1 := { p with
    frame := 0
    frameoffset := Helpers.round (random 0 360 q.rFo)
    size := Helpers.round (random s.minSize s.maxSize q.rSize) }
  { p1 with
    da := getAlphaDelta s q.rDa q.daFlip
    dx := getDeltaX s t p1 q.rVx
    dy := getDeltaY s t p1 q.rVy
    dd := getDriftDelta s q.rDd
    dr := getRotationDelta s t q.rDr q.drFlip }

/-- Embeds `Sparticle.prototype.init`: a `setup` followed by sampling
alpha, shape, both colors, position and rotation. -/
def init (s : Settings) (cv : Canvas) (images : Option (List String))
    (t : Trig) (p : Particle) (q : InitRand) : Particle :=
  let p1 := setup s t p q.s
  { p1 with
    alpha := random s.minAlpha s.maxAlpha q.rAlpha
    shape := getShapeOrImage s images q.iShape
    fillColor := getColor s q.iFill
    strokeColor := getColor s q.iStroke
    px := Helpers.round (random (-(p1.size * 2)) (cv.width + p1.size) q.rPx)
    py := Helpers.round (random (-(p1.size * 2)) (cv.height + p1.size) q.rPy)
    rotation := if s.rotate then t.radian (random 0 360 q.rRot) else 0 }

/-- Embeds `Sparticle.prototype.reset`: a fresh `setup`, then the Y
coordinate is snapped past the opposite edge when it lies past a raw edge,
then likewise the X coordinate. -/
def reset (s : Settings) (cv : Canvas) (t : Trig) (p : Particle) (q : SetupRand) :
    Particle :=
  let p1 := setup s t p q
  let p2 :=
    if p1.py < 0 then { p1 with py := cv.height + p1.size * 2 }
    else if p1.py > cv.height then { p1 with py := 0 - p1.size * 2 }
    else p1
  if p2.px < 0 then { p2 with px := cv.width + p2.size * 2 }
  else if p2.px > cv.width then { p2 with px := 0 - p2.size * 2 }
  else p2

/-- Embeds `Sparticle.prototype.isOffCanvas`. -/
def isOffCanvas (cv : Canvas) (p : Particle) : Bool :=
  let topleft := 0 - p.size * 3
  let bottom := cv.height + p.size * 3
  let right := cv.width + p.size * 3
  p.px < topleft ∨ p.px > right ∨ p.py < topleft ∨ p.py > bottom

/-- Embeds `Sparticle.prototype.updateFade`: the returned particle carries
the new alpha (the assignment done by `updateAlpha`) and the possibly
reversed da. -/
def updateFade (s : Settings) (p : Particle) : Particle :=
  let tick := p.da / 1000 * s.alphaSpeed * (1 / 2)
  let alpha := p.alpha + tick
  let over := p.da > 0 ∧ alpha > s.maxAlpha
  let under := p.da < 0 ∧ alpha < s.minAlpha
  if over ∨ under then
    { p with
      da := -p.da
      alpha := if p.da < 0 ∧ alpha < s.minAlpha then s.minAlpha else s.maxAlpha }
  else
    { p with alpha := alpha }

/-- Embeds `Sparticle.prototype.updateTwinkle`: note that `over` and
`under` are computed from the alpha value the step starts with. -/
def updateTwinkle (s : Settings) (p : Particle) : Particle :=
  let delta := |p.da|
  let over := p.alpha > s.maxAlpha
  let under := p.alpha < s.minAlpha
  let tick := delta / 1000 * s.alphaSpeed * (1 / 2)
  let alpha :=
    if p.resettingTwinkle then p.alpha + 2 / 100 * s.alphaSpeed
    else p.alpha - tick
  if under then { p with resettingTwinkle := true, alpha := s.minAlpha }
  else if over then { p with resettingTwinkle := false, alpha := s.maxAlpha }
  else { p with alpha := alpha }

/-- Embeds `Sparticle.prototype.updateAlpha`. -/
def updateAlpha (s : Settings) (p : Particle) : Particle :=
  if s.alphaSpeed > 0 then
    if s.twinkle then updateTwinkle s p else updateFade s p
  else p

/-- Embeds `Sparticle.prototype.updateRotation`. -/
def updateRotation (s : Settings) (p : Particle) : Particle :=
  if s.rotate ∧ s.rotation ≠ 0 then { p with rotation := p.rotation + p.dr }
  else p

/-- Embeds `Sparticle.prototype.updateDrift`. -/
def updateDrift (s : Settings) (t : Trig) (p : Particle) : Particle :=
  if s.drift ≠ 0 ∧ s.speed ≠ 0 then
    if (s.direction > 150 ∧ s.direction < 210) ∨
        (s.direction > 330 ∧ s.direction < 390) ∨
        (s.direction > -30 ∧ s.direction < 30) then
      { p with px := p.px +
          (t.cartesian (p.frame + p.frameoffset)).1 * p.dd / (getDelta s p * 15) }
    else if (s.direction > 60 ∧ s.direction < 120) ∨
        (s.direction > 240 ∧ s.direction < 300) then
      { p with py := p.py +
          (t.cartesian (p.frame + p.frameoffset)).2 * p.dd / (getDelta s p * 15) }
    else p
  else p

/-- Embeds `Sparticle.prototype.updatePosition`; `q` is the random packet
consumed when the off-canvas branch resets the particle. -/
def updatePosition (s : Settings) (cv : Canvas) (t : Trig) (p : Particle)
    (q : SetupRand) : Particle :=
  if isOffCanvas cv p then reset s cv t p q
  else
    let p1 := { p with px := p.px + p.dx, py := p.py + p.dy }
    updateRotation s (updateDrift s t p1)

/-- Embeds `Sparticle.prototype.update`. -/
def update (s : Settings) (cv : Canvas) (t : Trig) (p : Particle) (q : SetupRand) :
    Particle :=
  updateAlpha s (updatePosition s cv t { p with frame := p.frame + 1 } q)

end Sparticle

/-- An affine transform of the drawing surface, in canvas order: the matrix
with rows `(a c e)`, `(b d f)`, `(0 0 1)`. -/
structure Affine where
  a : ℚ
  b : ℚ
  c : ℚ
  d : ℚ
  e : ℚ
  f : ℚ
deriving DecidableEq

namespace Affine

/-- The identity transform. -/
def idA : Affine := ⟨1, 0, 0, 1, 0, 0⟩

/-- Matrix product of two affine transforms (`m` applied after `n`). -/
def mul (m n : Affine) : Affine :=
  ⟨m.a * n.a + m.c * n.b, m.b * n.a + m.d * n.b,
   m.a * n.c + m.c * n.d, m.b * n.c + m.d * n.d,
   m.a * n.e + m.c * n.f + m.e, m.b * n.e + m.d * n.f + m.f⟩

end Affine

/-- One recorded `drawImage` call together with the surface state it was
issued under. -/
structure DrawOp where
  transform : Affine
  alpha : ℚ
  composite : String
  sx : ℚ
  sy : ℚ
  sw : ℚ
  sh : ℚ
  dx : ℚ
  dy : ℚ
  dw : ℚ
  dh : ℚ
deriving DecidableEq

/-- Modelled from the spec: the drawing surface (2d context) as the shared
state a render call mutates — current transform, global alpha, composite
mode — plus the log of issued draw calls. -/
structure Ctx where
  transform : Affine
  globalAlpha : ℚ
  composite : String
  draws : List DrawOp
deriving DecidableEq

namespace Ctx

/-- Embeds `ctx.transform(a, b, c, d, e, f)`: right-multiplies the current
transform. -/
def applyTransform (c : Ctx) (m : Affine) : Ctx :=
  { c with transform := Affine.mul c.transform m }

/-- Embeds `ctx.setTransform(a, b, c, d, e, f)`: replaces the current
transform. -/
def setTransform (c : Ctx) (m : Affine) : Ctx :=
  { c with transform := m }

/-- Embeds `ctx.translate(x, y)`. -/
def translate (c : Ctx) (x y : ℚ) : Ctx :=
  c.applyTransform ⟨1, 0, 0, 1, x, y⟩

/-- Embeds `ctx.rotate(angle)`; `co` and `si` are the cosine and sine of
the angle, supplied by the trig record. -/
def rotate (c : Ctx) (co si : ℚ) : Ctx :=
  c.applyTransform ⟨co, si, -si, co, 0, 0⟩

/-- Embeds `ctx.drawImage(...)`: records the call under the current
surface state. -/
def drawImage (c : Ctx) (sx sy sw sh dx dy dw dh : ℚ) : Ctx :=
  { c with draws := c.draws ++
      [⟨c.transform, c.globalAlpha, c.composite, sx, sy, sw, sh, dx, dy, dw, dh⟩] }

end Ctx

namespace Sparticle

open Helpers

/-- Embeds `Sparticle.prototype.renderRotate`. -/
def renderRotate (s : Settings) (t : Trig) (p : Particle) (c : Ctx) : Ctx :=
  if s.rotate then
    let centerX := p.px + p.size / 2
    let centerY := p.py + p.size / 2
    (((c.translate centerX centerY).rotate (t.cos p.rotation)
        (t.sin p.rotation)).translate (-centerX) (-centerY))
  else c

/-- Embeds `Sparticle.prototype.render`; `canvasSize` is the native size of
the pre-rasterized bitmap looked up in the external cache. -/
def render (s : Settings) (t : Trig) (p : Particle) (canvasSize : ℚ)
    (c : Ctx) : Ctx :=
  let scale := p.size / canvasSize
  let px := p.px / scale
  let py := p.py / scale
  let c1 := renderRotate s t p c
  let c2 := { c1 with globalAlpha := clamp p.alpha 0 1 }
  let c3 := c2.applyTransform ⟨scale, 0, 0, scale, 0, 0⟩
  let c4 := if c3.composite ≠ s.composition then
      { c3 with composite := s.composition }
    else c3
  let c5 := c4.drawImage 0 0 canvasSize canvasSize px py canvasSize canvasSize
  c5.setTransform Affine.idA

end Sparticle

/-- The parent context a particle is constructed from: the manager's
canvas, image list and settings. -/
structure Parent where
  canvas : Canvas
  images : Option (List String)
  settings : Settings

/-- The observable outcome of running the `Sparticle` constructor function:
whether a warning was emitted, whether the function returned normally, and
the initialised particle state (`none` when no field was ever set). -/
structure CtorResult where
  warned : Bool
  returned : Bool
  state : Option Particle

/-- A particle record with no field set yet, standing for the fresh JS
object the constructor starts from. -/
def Particle.blank : Particle :=
  ⟨0, 0, 0, 0, 0, 0, 0, 0, 0, 0, 0, 0, false, none, none, none⟩

/-- Embeds the `Sparticle` constructor function: with a parent it stores
the shared references and runs `init`; without one it emits a console
warning — and still returns `this`, with every field unset. -/
def Sparticle.construct (parent : Option Parent) (t : Helpers.Trig)
    (q : InitRand) : CtorResult :=
  match parent with
  | some par =>
      { warned := false, returned := true,
        state := some (Sparticle.init par.settings par.canvas par.images t
          Particle.blank q) }
  | none => { warned := true, returned := true, state := none }

/-- Concrete trig record for evaluating closed instances. -/
def trig0 : Helpers.Trig := ⟨fun _ => (1, 0), fun d => d, fun _ => 1, fun _ => 0⟩

/-- Concrete random packet for a `setup` call. -/
def rand0 : SetupRand := ⟨0, 0, 0, false, 0, 0, 0, 0, false⟩

/-- Concrete random packet for an `init` call. -/
def initRand0 : InitRand := ⟨rand0, 0, 0, 0, 0, 0, 0, 0⟩

/-- A 100 by 100 bounds region. -/
def cv0 : Canvas := ⟨100, 100⟩

/-- A twinkle-mode configuration: alpha range `[0, 1]`, alphaSpeed 10. -/
def cfgTw : Settings :=
  ⟨0, 1, 10, 10, true, 10, 10, 10, 0, 0, 0, 0, 0, 0, false,
   ["blue"], ["circle"], "source-over"⟩

/-- A fade-mode configuration: alpha range `[0, 1]`, alphaSpeed 10. -/
def cfgFd : Settings :=
  ⟨0, 1, 10, 10, false, 10, 10, 10, 0, 0, 0, 0, 0, 0, false,
   ["blue"], ["circle"], "source-over"⟩

/-- A configuration with speed 0 and an X variance of 10. -/
def cfgS0 : Settings :=
  ⟨0, 1, 10, 10, false, 10, 10, 0, 0, 10, 0, 0, 0, 0, false,
   ["blue"], ["circle"], "source-over"⟩

/-- A configuration whose composite mode differs from the surface default. -/
def cfgR : Settings :=
  ⟨0, 1, 10, 10, false, 10, 10, 10, 0, 0, 0, 0, 0, 0, false,
   ["blue"], ["circle"], "lighter"⟩

/-- A particle sitting exactly at the minimum alpha of `cfgTw`, decaying. -/
def pTw : Particle :=
  ⟨50, 50, 0, 2, 0, 0, 0, 0, 10, 0, 0, 0, false,
   some "circle", some "blue", some "blue"⟩

/-- A particle one twinkle tick above the minimum alpha of `cfgTw`. -/
def pC3 : Particle :=
  ⟨50, 50, 1 / 100, 2, 0, 0, 0, 0, 10, 0, 0, 0, false,
   some "circle", some "blue", some "blue"⟩

/-- A particle whose fill color is not in the configured color set. -/
def pRed : Particle :=
  ⟨50, 50, 1, 2, 0, 0, 0, 0, 10, 0, 0, 0, false,
   some "circle", some "red", some "red"⟩

/-- A particle far off the left edge. -/
def pLeft : Particle :=
  ⟨-100, 50, 1, 2, 0, 0, 0, 0, 10, 0, 0, 0, false,
   some "circle", some "blue", some "blue"⟩

/-- A particle off the left edge whose Y coordinate is past the raw top
edge but within the 3 by size margin. -/
def pC10 : Particle :=
  ⟨-100, -5, 1, 2, 0, 0, 0, 0, 10, 0, 0, 0, false,
   some "circle", some "blue", some "blue"⟩

/-- A particle with alpha one half, for render and fade instances. -/
def pR : Particle :=
  ⟨50, 50, 1 / 2, 2, 0, 0, 0, 0, 10, 0, 0, 0, false,
   some "circle", some "blue", some "blue"⟩

/-- A particle whose alpha is below the minimum alpha of `cfgTw`. -/
def pUnder : Particle :=
  ⟨50, 50, -1, 2, 0, 0, 0, 0, 10, 0, 0, 0, false,
   some "circle", some "blue", some "blue"⟩

/-- A drawing surface at its default state: identity transform, alpha 1,
source-over compositing, no draw calls yet. -/
def ctx0 : Ctx := ⟨Affine.idA, 1, "source-over", []⟩

/-- A `setup` call leaves the X position unchanged. -/
theorem Sparticle.setup_px (s : Settings) (t : Helpers.Trig) (p : Particle)
    (q : SetupRand) : (Sparticle.setup s t p q).px = p.px := rfl

/-- A `setup` call leaves the Y position unchanged. -/
theorem Sparticle.setup_py (s : Settings) (t : Helpers.Trig) (p : Particle)
    (q : SetupRand) : (Sparticle.setup s t p q).py = p.py := rfl

/-- A `setup` call leaves the alpha unchanged. -/
theorem Sparticle.setup_alpha (s : Settings) (t : Helpers.Trig) (p : Particle)
    (q : SetupRand) : (Sparticle.setup s t p q).alpha = p.alpha := rfl

/-- A `setup` call leaves the shape choice unchanged. -/
theorem Sparticle.setup_shape (s : Settings) (t : Helpers.Trig) (p : Particle)
    (q : SetupRand) : (Sparticle.setup s t p q).shape = p.shape := rfl

/-- A `setup` call leaves the fill color unchanged. -/
theorem Sparticle.setup_fillColor (s : Settings) (t : Helpers.Trig)
    (p : Particle) (q : SetupRand) :
    (Sparticle.setup s t p q).fillColor = p.fillColor := rfl

/-- A `setup` call leaves the stroke color unchanged. -/
theorem Sparticle.setup_strokeColor (s : Settings) (t : Helpers.Trig)
    (p : Particle) (q : SetupRand) :
    (Sparticle.setup s t p q).strokeColor = p.strokeColor := rfl

/-- Claim C8: after a `render` call returns, the drawing surface's
transform is the identity transform, for every particle state,
configuration, bitmap size and incoming surface state. -/
theorem claimC8_render_transform_identity (s : Settings) (t : Helpers.Trig)
    (p : Particle) (canvasSize : ℚ) (c : Ctx) :
    (Sparticle.render s t p canvasSize c).transform = Affine.idA := rfl

/-- Claim C7 counterexample: constructing without a parent context does
not fail fast — the constructor returns normally with no field ever
initialised, so a degenerate particle object is produced (with a console
warning). -/
theorem claimC7_cex :
    (Sparticle.construct none trig0 initRand0).returned = true ∧
    (Sparticle.construct none trig0 initRand0).state = none ∧
    (Sparticle.construct none trig0 initRand0).warned = true :=
  ⟨rfl, rfl, rfl⟩

/-- Claim C7 (amended): constructing without a valid parent context
surfaces the error only as a console warning; the constructor still
completes and returns a degenerate particle whose fields were never set,
while construction with a parent initialises the particle and emits no
warning. -/
theorem claimC7_amended (t : Helpers.Trig) (q : InitRand) :
    (Sparticle.construct none t q).warned = true ∧
    (Sparticle.construct none t q).returned = true ∧
    (Sparticle.construct none t q).state = none ∧
    ∀ par : Parent,
      (Sparticle.construct (some par) t q).warned = false ∧
      (Sparticle.construct (some par) t q).returned = true ∧
      (Sparticle.construct (some par) t q).state =
        some (Sparticle.init par.settings par.canvas par.images t
          Particle.blank q) :=
  ⟨rfl, rfl, rfl, fun _ => ⟨rfl, rfl, rfl⟩⟩

/-- Claim C2 counterexample: a recycle does not re-sample the color
choice — a particle whose fill color is not even a member of the
configured color set keeps it across `reset`, while a genuine color
sample could only return a configured color. -/
theorem claimC2_cex :
    (Sparticle.reset cfgFd cv0 trig0 pRed rand0).fillColor = some "red" ∧
    ¬ "red" ∈ cfgFd.color ∧
    Sparticle.getColor cfgFd 0 = some "blue" := by decide

/-- Claim C2 (amended): at every recycle, `setup` re-samples size, da, dx,
dy, dd and dr together, but the color and shape choices (and alpha) are
left untouched; only `init`, at creation, samples the color and shape
choices as well. -/
theorem claimC2_amended (s : Settings) (cv : Canvas) (t : Helpers.Trig)
    (p : Particle) (q : SetupRand) (im : Option (List String))
    (qi : InitRand) :
    (Sparticle.reset s cv t p q).fillColor = p.fillColor ∧
    (Sparticle.reset s cv t p q).strokeColor = p.strokeColor ∧
    (Sparticle.reset s cv t p q).shape = p.shape ∧
    (Sparticle.reset s cv t p q).alpha = p.alpha ∧
    (Sparticle.reset s cv t p q).size = (Sparticle.setup s t p q).size ∧
    (Sparticle.reset s cv t p q).da = (Sparticle.setup s t p q).da ∧
    (Sparticle.reset s cv t p q).dx = (Sparticle.setup s t p q).dx ∧
    (Sparticle.reset s cv t p q).dy = (Sparticle.setup s t p q).dy ∧
    (Sparticle.reset s cv t p q).dd = (Sparticle.setup s t p q).dd ∧
    (Sparticle.reset s cv t p q).dr = (Sparticle.setup s t p q).dr ∧
    (Sparticle.init s cv im t p qi).fillColor = Sparticle.getColor s qi.iFill ∧
    (Sparticle.init s cv im t p qi).strokeColor =
      Sparticle.getColor s qi.iStroke ∧
    (Sparticle.init s cv im t p qi).shape =
      Sparticle.getShapeOrImage s im qi.iShape ∧
    (Sparticle.init s cv im t p qi).size = (Sparticle.setup s t p qi.s).size ∧
    (Sparticle.init s cv im t p qi).da = (Sparticle.setup s t p qi.s).da := by
  simp only [Sparticle.reset, Sparticle.init]
  split_ifs <;>
    simp_all [Sparticle.setup_alpha, Sparticle.setup_shape,
      Sparticle.setup_fillColor, Sparticle.setup_strokeColor]
/-- The size a `reset` leaves on the particle is the freshly sampled one. -/
theorem Sparticle.reset_size (s : Settings) (cv : Canvas) (t : Helpers.Trig)
    (p : Particle) (q : SetupRand) :
    (Sparticle.reset s cv t p q).size = (Sparticle.setup s t p q).size := by
  simp only [Sparticle.reset]
  split_ifs <;> rfl

/-- Characterization of the X coordinate produced by `reset`. -/
theorem Sparticle.reset_px (s : Settings) (cv : Canvas) (t : Helpers.Trig)
    (p : Particle) (q : SetupRand) :
    (Sparticle.reset s cv t p q).px =
      if p.px < 0 then cv.width + (Sparticle.setup s t p q).size * 2
      else if p.px > cv.width then 0 - (Sparticle.setup s t p q).size * 2
      else p.px := by
  simp only [Sparticle.reset]
  split_ifs <;> simp_all [Sparticle.setup_px, Sparticle.setup_py, Sparticle.setup]

/-- Characterization of the Y coordinate produced by `reset`. -/
theorem Sparticle.reset_py (s : Settings) (cv : Canvas) (t : Helpers.Trig)
    (p : Particle) (q : SetupRand) :
    (Sparticle.reset s cv t p q).py =
      if p.py < 0 then cv.height + (Sparticle.setup s t p q).size * 2
      else if p.py > cv.height then 0 - (Sparticle.setup s t p q).size * 2
      else p.py := by
  simp only [Sparticle.reset]
  split_ifs <;> simp_all [Sparticle.setup_px, Sparticle.setup_py, Sparticle.setup]

/-- Claim C4: on a canvas with nonnegative bounds, a particle off-bounds
on the left (X below the left edge beyond the 3 by size off-canvas
margin) is repositioned by one `reset` to `boundsWidth + 2 * size` where
`size` is the freshly sampled size of the new lifecycle, never to a
random position; symmetrically for the other three edges the triggering
coordinate is snapped to the opposite edge with a 2 by size margin. -/
theorem claimC4_reset_opposite_edge (s : Settings) (cv : Canvas)
    (t : Helpers.Trig) (p : Particle) (q : SetupRand) (hsz : 0 ≤ p.size)
    (hw : 0 ≤ cv.width) (hh : 0 ≤ cv.height) :
    (p.px < -(p.size * 3) →
      (Sparticle.reset s cv t p q).px =
        cv.width + (Sparticle.reset s cv t p q).size * 2) ∧
    (p.px > cv.width + p.size * 3 →
      (Sparticle.reset s cv t p q).px =
        0 - (Sparticle.reset s cv t p q).size * 2) ∧
    (p.py < -(p.size * 3) →
      (Sparticle.reset s cv t p q).py =
        cv.height + (Sparticle.reset s cv t p q).size * 2) ∧
    (p.py > cv.height + p.size * 3 →
      (Sparticle.reset s cv t p q).py =
        0 - (Sparticle.reset s cv t p q).size * 2) := by
  rw [Sparticle.reset_px, Sparticle.reset_py, Sparticle.reset_size]
  refine ⟨fun hc => ?_, fun hc => ?_, fun hc => ?_, fun hc => ?_⟩
  · rw [if_pos (by nlinarith)]
  · rw [if_neg (by nlinarith), if_pos (by nlinarith)]
  · rw [if_pos (by nlinarith)]
  · rw [if_neg (by nlinarith), if_pos (by nlinarith)]

/-- Claim C4 witness: a concrete particle that exited past the left
margin is recycled to the right edge with the 2 by size margin. -/
theorem claimC4_wit :
    0 ≤ pLeft.size ∧ pLeft.px < -(pLeft.size * 3) ∧
    (Sparticle.reset cfgFd cv0 trig0 pLeft rand0).px =
      cv0.width + (Sparticle.reset cfgFd cv0 trig0 pLeft rand0).size * 2 :=
  ⟨by norm_num [pLeft], by norm_num [pLeft],
    (claimC4_reset_opposite_edge cfgFd cv0 trig0 pLeft rand0
      (by norm_num [pLeft]) (by norm_num [cv0]) (by norm_num [cv0])).1
      (by norm_num [pLeft])⟩

/-- Claim C10: in `reset` each axis is repositioned whenever its
coordinate lies past the raw canvas edge, not only past the 3 by size
off-bounds margin: a particle that triggered recycling on the X axis
while its Y coordinate lies strictly between the raw top edge and the
margin has both coordinates snapped. -/
theorem claimC10_reset_snaps_both_axes (s : Settings) (cv : Canvas)
    (t : Helpers.Trig) (p : Particle) (q : SetupRand)
    (h1 : p.px < -(p.size * 3)) (h2 : -(p.size * 3) < p.py) (h3 : p.py < 0) :
    Sparticle.isOffCanvas cv p = true ∧
    ¬ p.py < -(p.size * 3) ∧
    (Sparticle.reset s cv t p q).py =
      cv.height + (Sparticle.reset s cv t p q).size * 2 ∧
    (Sparticle.reset s cv t p q).px =
      cv.width + (Sparticle.reset s cv t p q).size * 2 := by
  rw [Sparticle.reset_px, Sparticle.reset_py, Sparticle.reset_size]
  refine ⟨?_, by linarith, ?_, ?_⟩
  · simp only [Sparticle.isOffCanvas, decide_eq_true_eq]
    exact Or.inl (by linarith)
  · rw [if_pos h3]
  · rw [if_pos (by nlinarith)]

/-- Claim C10 witness: a concrete particle off the left margin whose Y is
between the raw top edge and the margin gets both axes snapped. -/
theorem claimC10_wit :
    (Sparticle.reset cfgFd cv0 trig0 pC10 rand0).py =
      cv0.height + (Sparticle.reset cfgFd cv0 trig0 pC10 rand0).size * 2 ∧
    (Sparticle.reset cfgFd cv0 trig0 pC10 rand0).px =
      cv0.width + (Sparticle.reset cfgFd cv0 trig0 pC10 rand0).size * 2 :=
  ⟨(claimC10_reset_snaps_both_axes cfgFd cv0 trig0 pC10 rand0
      (by norm_num [pC10]) (by norm_num [pC10]) (by norm_num [pC10])).2.2.1,
   (claimC10_reset_snaps_both_axes cfgFd cv0 trig0 pC10 rand0
      (by norm_num [pC10]) (by norm_num [pC10]) (by norm_num [pC10])).2.2.2⟩

/-- Claim C1 counterexample: in twinkle mode a particle sitting exactly at
minAlpha, with alphaSpeed > 0, leaves `updateAlpha` with an alpha strictly
below minAlpha — the overshoot is not corrected within the same step. -/
theorem claimC1_cex :
    cfgTw.minAlpha ≤ pTw.alpha ∧ pTw.alpha ≤ cfgTw.maxAlpha ∧
    0 < cfgTw.alphaSpeed ∧ cfgTw.twinkle = true ∧
    (Sparticle.updateAlpha cfgTw pTw).alpha < cfgTw.minAlpha := by
  norm_num [Sparticle.updateAlpha, Sparticle.updateTwinkle, cfgTw, pTw,
    abs_of_pos]

/-- Claim C1 (amended): with alphaSpeed > 0 and minAlpha less or equal
maxAlpha, a fade-mode `updateAlpha` step keeps alpha within
`[minAlpha, maxAlpha]` whenever it started there; a twinkle-mode step may
instead overshoot a bound, and whenever alpha is outside the bounds at the
start of a step that step clamps it back to the breached bound — the
overshoot is corrected on the following step, not within the same one. -/
theorem claimC1_amended (s : Settings) (p : Particle)
    (hs : 0 < s.alphaSpeed) (hmm : s.minAlpha ≤ s.maxAlpha) :
    (s.twinkle = false → s.minAlpha ≤ p.alpha → p.alpha ≤ s.maxAlpha →
      s.minAlpha ≤ (Sparticle.updateAlpha s p).alpha ∧
      (Sparticle.updateAlpha s p).alpha ≤ s.maxAlpha) ∧
    (s.twinkle = true → p.alpha < s.minAlpha →
      (Sparticle.updateAlpha s p).alpha = s.minAlpha) ∧
    (s.twinkle = true → s.maxAlpha < p.alpha →
      (Sparticle.updateAlpha s p).alpha = s.maxAlpha) := by
  refine ⟨fun htw h1 h2 => ?_, fun htw h1 => ?_, fun htw h1 => ?_⟩
  · simp only [Sparticle.updateAlpha, if_pos hs, htw, Bool.false_eq_true,
      if_false, Sparticle.updateFade]
    split_ifs with hov hun
    · simp only
      exact ⟨le_refl _, hmm⟩
    · simp only
      exact ⟨hmm, le_refl _⟩
    · simp only
      push_neg at hov
      obtain ⟨hov1, hun1⟩ := hov
      rcases lt_trichotomy p.da 0 with hda | hda | hda
      · have hmul : p.da * s.alphaSpeed < 0 := mul_neg_of_neg_of_pos hda hs
        have hge := hun1 hda
        constructor <;> nlinarith
      · have hzero : p.da / 1000 * s.alphaSpeed * (1 / 2) = 0 := by
          rw [hda]; ring
        constructor <;> linarith
      · have hmul : 0 < p.da * s.alphaSpeed := mul_pos hda hs
        have hle := hov1 hda
        constructor <;> nlinarith
  · simp only [Sparticle.updateAlpha, if_pos hs, htw, if_true,
      Sparticle.updateTwinkle]
    rw [if_pos h1]
  · simp only [Sparticle.updateAlpha, if_pos hs, htw, if_true,
      Sparticle.updateTwinkle]
    rw [if_neg (by linarith), if_pos h1]

/-- Claim C1 witness: a fade-mode step from alpha one half stays within
the configured `[0, 1]` alpha range. -/
theorem claimC1_wit :
    cfgFd.minAlpha ≤ (Sparticle.updateAlpha cfgFd pR).alpha ∧
    (Sparticle.updateAlpha cfgFd pR).alpha ≤ cfgFd.maxAlpha :=
  (claimC1_amended cfgFd pR (by norm_num [cfgFd]) (by norm_num [cfgFd])).1
    rfl (by norm_num [cfgFd, pR]) (by norm_num [cfgFd, pR])

/-- Claim C3 counterexample: a twinkle-mode step can leave alpha exactly
at minAlpha by ordinary decay (without clamping); the resetting flag stays
false and the immediately following step strictly decreases alpha instead
of increasing it. -/
theorem claimC3_cex :
    (Sparticle.updateAlpha cfgTw pC3).alpha = cfgTw.minAlpha ∧
    (Sparticle.updateAlpha cfgTw pC3).resettingTwinkle = false ∧
    (Sparticle.updateAlpha cfgTw (Sparticle.updateAlpha cfgTw pC3)).alpha <
      (Sparticle.updateAlpha cfgTw pC3).alpha := by
  norm_num [Sparticle.updateAlpha, Sparticle.updateTwinkle, cfgTw, pC3,
    abs_of_pos]

/-- Claim C3 (amended): in twinkle mode with alphaSpeed > 0, minAlpha less
or equal maxAlpha and a nonzero alphaDelta, whenever a step starts below
minAlpha it clamps alpha to minAlpha and enters the resetting sub-state,
and the immediately following step strictly increases alpha; whenever a
step starts above maxAlpha it clamps to maxAlpha and enters the decaying
sub-state, and the following step strictly decreases alpha. -/
theorem claimC3_amended (s : Settings) (p : Particle)
    (hs : 0 < s.alphaSpeed) (hmm : s.minAlpha ≤ s.maxAlpha)
    (htw : s.twinkle = true) (hda : p.da ≠ 0) :
    (p.alpha < s.minAlpha →
      (Sparticle.updateAlpha s p).alpha = s.minAlpha ∧
      (Sparticle.updateAlpha s p).resettingTwinkle = true ∧
      (Sparticle.updateAlpha s p).alpha <
        (Sparticle.updateAlpha s (Sparticle.updateAlpha s p)).alpha) ∧
    (s.maxAlpha < p.alpha →
      (Sparticle.updateAlpha s p).alpha = s.maxAlpha ∧
      (Sparticle.updateAlpha s p).resettingTwinkle = false ∧
      (Sparticle.updateAlpha s (Sparticle.updateAlpha s p)).alpha <
        (Sparticle.updateAlpha s p).alpha) := by
  have habs : 0 < |p.da| := abs_pos.mpr hda
  constructor
  · intro h1
    have e1 : Sparticle.updateAlpha s p =
        { p with resettingTwinkle := true, alpha := s.minAlpha } := by
      simp only [Sparticle.updateAlpha, if_pos hs, htw, if_true,
        Sparticle.updateTwinkle]
      rw [if_pos h1]
    rw [e1]
    refine ⟨rfl, rfl, ?_⟩
    simp only [Sparticle.updateAlpha, if_pos hs, htw, if_true,
      Sparticle.updateTwinkle]
    rw [if_neg (by simp), if_neg (by simp; linarith)]
    simp only
    linarith
  · intro h1
    have e1 : Sparticle.updateAlpha s p =
        { p with resettingTwinkle := false, alpha := s.maxAlpha } := by
      simp only [Sparticle.updateAlpha, if_pos hs, htw, if_true,
        Sparticle.updateTwinkle]
      rw [if_neg (by linarith), if_pos h1]
    rw [e1]
    refine ⟨rfl, rfl, ?_⟩
    simp only [Sparticle.updateAlpha, if_pos hs, htw, if_true,
      Sparticle.updateTwinkle]
    rw [if_neg (by simp; linarith), if_neg (by simp)]
    simp only [Bool.false_eq_true, if_false]
    have hmul : 0 < |p.da| * s.alphaSpeed := mul_pos habs hs
    nlinarith

/-- Claim C3 witness: a twinkle particle below minAlpha is clamped to
minAlpha, marked resetting, and strictly increases on the next step. -/
theorem claimC3_wit :
    (Sparticle.updateAlpha cfgTw pUnder).alpha = cfgTw.minAlpha ∧
    (Sparticle.updateAlpha cfgTw pUnder).resettingTwinkle = true ∧
    (Sparticle.updateAlpha cfgTw pUnder).alpha <
      (Sparticle.updateAlpha cfgTw (Sparticle.updateAlpha cfgTw pUnder)).alpha :=
  (claimC3_amended cfgTw pUnder (by norm_num [cfgTw]) (by norm_num [cfgTw])
    rfl (by norm_num [pUnder])).1 (by norm_num [cfgTw, pUnder])

/-- Claim C5 counterexample: the sampled alphaDelta magnitude is drawn
from `random(1, alphaVariance + 1)`, so for a random outcome near 1 its
magnitude exceeds alphaVariance. -/
theorem claimC5_cex :
    0 ≤ (19 : ℚ) / 20 ∧ (19 : ℚ) / 20 < 1 ∧
    Sparticle.getAlphaDelta cfgTw (19 / 20) false = 21 / 2 ∧
    cfgTw.alphaVariance < |Sparticle.getAlphaDelta cfgTw (19 / 20) false| := by
  norm_num [Sparticle.getAlphaDelta, Helpers.random, cfgTw, abs_of_pos]

/-- Claim C5 (amended): for a random outcome `r` in `[0,1)` and a
nonnegative alphaVariance, the alphaDelta magnitude equals
`1 + r * alphaVariance`, i.e. it is drawn from `[1, alphaVariance + 1)` —
it may exceed alphaVariance — and its sign is flipped exactly when the
probability roll succeeds. -/
theorem claimC5_amended (s : Settings) (r : ℚ) (flip : Bool)
    (h0 : 0 ≤ r) (h1 : r < 1) (hv : 0 ≤ s.alphaVariance) :
    |Sparticle.getAlphaDelta s r flip| = 1 + r * s.alphaVariance ∧
    1 ≤ |Sparticle.getAlphaDelta s r flip| ∧
    |Sparticle.getAlphaDelta s r flip| ≤ s.alphaVariance + 1 ∧
    (0 < s.alphaVariance →
      |Sparticle.getAlphaDelta s r flip| < s.alphaVariance + 1) ∧
    (flip = true →
      Sparticle.getAlphaDelta s r flip = -(1 + r * s.alphaVariance)) ∧
    (flip = false →
      Sparticle.getAlphaDelta s r flip = 1 + r * s.alphaVariance) := by
  have hpos : 0 < 1 + r * s.alphaVariance := by nlinarith
  cases flip
  · have e0 : Sparticle.getAlphaDelta s r false =
        Helpers.random 1 (s.alphaVariance + 1) r := rfl
    have e : Sparticle.getAlphaDelta s r false = 1 + r * s.alphaVariance := by
      rw [e0]
      simp only [Helpers.random]
      ring
    have habs : |1 + r * s.alphaVariance| = 1 + r * s.alphaVariance :=
      abs_of_pos hpos
    rw [e, habs]
    refine ⟨rfl, by nlinarith, by nlinarith, fun hv2 => by nlinarith,
      fun h => ?_, fun _ => rfl⟩
    exact absurd h (by simp)
  · have e0 : Sparticle.getAlphaDelta s r true =
        -(Helpers.random 1 (s.alphaVariance + 1) r) := rfl
    have e : Sparticle.getAlphaDelta s r true = -(1 + r * s.alphaVariance) := by
      rw [e0]
      simp only [Helpers.random]
      ring
    have habs : |(-(1 + r * s.alphaVariance))| = 1 + r * s.alphaVariance := by
      rw [abs_neg]
      exact abs_of_pos hpos
    rw [e, habs]
    refine ⟨rfl, by nlinarith, by nlinarith, fun hv2 => by nlinarith,
      fun _ => rfl, fun h => ?_⟩
    exact absurd h (by simp)

/-- Claim C5 witness: a concrete flipped sample has magnitude
`1 + r * alphaVariance` and magnitude at least 1. -/
theorem claimC5_wit :
    |Sparticle.getAlphaDelta cfgTw (1 / 2) true| =
      1 + (1 / 2 : ℚ) * cfgTw.alphaVariance ∧
    1 ≤ |Sparticle.getAlphaDelta cfgTw (1 / 2) true| :=
  ⟨(claimC5_amended cfgTw (1 / 2) true (by norm_num) (by norm_num)
      (by norm_num [cfgTw])).1,
   (claimC5_amended cfgTw (1 / 2) true (by norm_num) (by norm_num)
      (by norm_num [cfgTw])).2.1⟩

/-- Claim C6 counterexample: with a configured speed of 0 the variance
term is computed from the fallback speed 10, so it is nonzero and differs
from `random(-v, v) * speed / 100` (which is 0). -/
theorem claimC6_cex :
    cfgS0.speed = 0 ∧ 0 < cfgS0.xVariance ∧
    Sparticle.getDeltaVariance cfgS0 cfgS0.xVariance (3 / 4) = 1 / 2 ∧
    Helpers.random (-cfgS0.xVariance) cfgS0.xVariance (3 / 4) *
      cfgS0.speed / 100 = 0 ∧
    Sparticle.getDeltaVariance cfgS0 cfgS0.xVariance (3 / 4) ≠
      Helpers.random (-cfgS0.xVariance) cfgS0.xVariance (3 / 4) *
        cfgS0.speed / 100 := by
  norm_num [Sparticle.getDeltaVariance, Helpers.random, cfgS0]

/-- Claim C6 (amended): for a positive variance `v` the variance term
equals `random(-v, v) * s / 100` where `s` is the configured speed when it
is nonzero and the fallback 10 when the configured speed is 0; in
particular the spec formula holds exactly for every nonzero speed. -/
theorem claimC6_amended (s : Settings) (v r : ℚ) (hv : 0 < v) :
    Sparticle.getDeltaVariance s v r =
      Helpers.random (-v) v r * (if s.speed = 0 then 10 else s.speed) / 100 ∧
    (s.speed ≠ 0 →
      Sparticle.getDeltaVariance s v r =
        Helpers.random (-v) v r * s.speed / 100) := by
  constructor
  · simp only [Sparticle.getDeltaVariance]
    rw [if_pos hv]
  · intro hsp
    simp only [Sparticle.getDeltaVariance]
    rw [if_pos hv, if_neg hsp]

/-- Claim C6 witness: with speed 10 and variance 10 the variance term is
exactly `random(-10, 10) * speed / 100`. -/
theorem claimC6_wit :
    Sparticle.getDeltaVariance cfgFd 10 (3 / 4) =
      Helpers.random (-10) 10 (3 / 4) * cfgFd.speed / 100 :=
  (claimC6_amended cfgFd 10 (3 / 4) (by norm_num)).2 (by norm_num [cfgFd])

/-- After a render call the surface's global alpha is the particle's
clamped alpha and its composite mode is the configured composition. -/
theorem Sparticle.render_fields (s : Settings) (t : Helpers.Trig)
    (p : Particle) (cs : ℚ) (c : Ctx) :
    (Sparticle.render s t p cs c).globalAlpha = Helpers.clamp p.alpha 0 1 ∧
    (Sparticle.render s t p cs c).composite = s.composition := by
  simp only [Sparticle.render, Sparticle.renderRotate, Ctx.translate,
    Ctx.rotate, Ctx.applyTransform, Ctx.setTransform, Ctx.drawImage]
  split_ifs <;> simp_all

/-- Claim C9 counterexample: a render call resets the transform but does
not reset the surface's global alpha or composite mode before returning —
starting from the surface defaults, after the call they hold the rendered
particle's values instead. -/
theorem claimC9_cex :
    ctx0.globalAlpha = 1 ∧ ctx0.composite = "source-over" ∧
    (Sparticle.render cfgR trig0 pR 100 ctx0).transform = Affine.idA ∧
    (Sparticle.render cfgR trig0 pR 100 ctx0).globalAlpha = 1 / 2 ∧
    (Sparticle.render cfgR trig0 pR 100 ctx0).composite = "lighter" ∧
    (Sparticle.render cfgR trig0 pR 100 ctx0).globalAlpha ≠
      ctx0.globalAlpha ∧
    (Sparticle.render cfgR trig0 pR 100 ctx0).composite ≠ ctx0.composite := by
  obtain ⟨ha, hc⟩ := Sparticle.render_fields cfgR trig0 pR 100 ctx0
  refine ⟨rfl, rfl, rfl, ?_, ?_, ?_, ?_⟩
  · rw [ha]
    norm_num [Helpers.clamp, pR, min_def, max_def]
  · rw [hc]
    rfl
  · rw [ha]
    norm_num [Helpers.clamp, pR, ctx0, min_def, max_def]
  · rw [hc]
    decide

/-- Claim C9 (amended): a render call resets only the transform to the
identity before returning; the global alpha and composite mode are left at
the values set for this particle (clamped alpha and the configured
composition).  Cross-particle interference is still impossible because the
render result does not depend on the incoming alpha and composite state at
all — only on the incoming transform and draw log. -/
theorem claimC9_amended (s : Settings) (t : Helpers.Trig) (p : Particle)
    (cs : ℚ) (tr : Affine) (a1 a2 : ℚ) (co1 co2 : String)
    (ds : List DrawOp) :
    Sparticle.render s t p cs ⟨tr, a1, co1, ds⟩ =
      Sparticle.render s t p cs ⟨tr, a2, co2, ds⟩ ∧
    (Sparticle.render s t p cs ⟨tr, a1, co1, ds⟩).transform = Affine.idA ∧
    (Sparticle.render s t p cs ⟨tr, a1, co1, ds⟩).globalAlpha =
      Helpers.clamp p.alpha 0 1 ∧
    (Sparticle.render s t p cs ⟨tr, a1, co1, ds⟩).composite =
      s.composition := by
  simp only [Sparticle.render, Sparticle.renderRotate, Ctx.translate,
    Ctx.rotate, Ctx.applyTransform, Ctx.setTransform, Ctx.drawImage]
  split_ifs <;> simp_all
